import Mathlib

/-!
Verification of the spatial-view pan/zoom widget (react-spatial-view).

The geometric core of the widget is embedded shallowly over `ℚ`:
JavaScript numbers are modelled as exact rationals, `Number(x.toFixed(3))`
as rounding to the nearest multiple of `1/1000` (rounding half up, which
agrees with JavaScript's round-half-away-from-zero on nonnegative inputs,
the only ones the scale pipeline produces), and DOM lookups that can fail
(`ref.current`, `element.closest`) as `Option` arguments.
-/

namespace SpatialView

/-- A 2-D point, as used for both positions and pointer coordinates. -/
structure Position where
  x : ℚ
  y : ℚ
  deriving DecidableEq, Repr

/-- The fields of a `DOMRect` that the widget reads. -/
structure DOMRect where
  left : ℚ
  top : ℚ
  width : ℚ
  height : ℚ
  deriving DecidableEq, Repr

/-- Model of `Number(q.toFixed(3))`: round to three decimal places. -/
def round3 (q : ℚ) : ℚ := round (q * 1000) / 1000

/-- `calculateNewScale` from `SpatialView.tsx`: proportional zoom step,
clamped to the configured bounds and rounded to three decimals.
`deltaY > 0` zooms out, anything else (including `0`) zooms in. -/
def calculateNewScale (currentScale deltaY sensitivity minScale maxScale : ℚ) : ℚ :=
  if deltaY > 0 then
    round3 (max minScale (currentScale - sensitivity * currentScale))
  else
    round3 (min maxScale (currentScale + sensitivity * currentScale))

/-- `calculateMousePosition` from `SpatialView.tsx`: the cursor's point in
content space (before scaling), given the container rect, the current
translation and the current scale. Returns `(currentMouseX, currentMouseY)`. -/
def calculateMousePosition (clientX clientY : ℚ) (rect : DOMRect)
    (currentPosition : Position) (scale : ℚ) : ℚ × ℚ :=
  let mouseX := clientX - rect.left
  let mouseY := clientY - rect.top
  ((mouseX - currentPosition.x) / scale, (mouseY - currentPosition.y) / scale)

/-- `calculateZoomPosition` from `SpatialView.tsx`: the translation that
keeps the content point `(currentMouseX, currentMouseY)` under the container
point `(mouseX, mouseY)` at scale `newScale`. -/
def calculateZoomPosition (mouseX mouseY currentMouseX currentMouseY newScale : ℚ) :
    Position :=
  ⟨mouseX - currentMouseX * newScale, mouseY - currentMouseY * newScale⟩

/-- The container/content measurements produced by `calculateBounds`:
`contentWidth`/`contentHeight` are the content's dimensions already divided
by the current scale (i.e. unscaled). `calculateBounds` returns `null` when
either DOM ref is absent, hence the `Option` at use sites. -/
structure Bounds where
  containerWidth : ℚ
  containerHeight : ℚ
  contentWidth : ℚ
  contentHeight : ℚ
  deriving DecidableEq, Repr

/-- `constrainPosition` from `SpatialView.tsx`. Returns the input unchanged
when the bounds are unavailable or the constraint is disabled; otherwise,
per axis, centers content smaller than the viewport and clamps the
coordinate between `min 0 (container - content*scl)` and
`max 0 (container - content*scl)` when content exceeds the viewport. -/
def constrainPosition (bounds : Option Bounds) (constrainPan : Bool)
    (pos : Position) (scl : ℚ) : Position :=
  match bounds, constrainPan with
  | none, _ => pos
  | some _, false => pos
  | some b, true =>
    let minX := min 0 (b.containerWidth - b.contentWidth * scl)
    let minY := min 0 (b.containerHeight - b.contentHeight * scl)
    let maxX := max 0 (b.containerWidth - b.contentWidth * scl)
    let maxY := max 0 (b.containerHeight - b.contentHeight * scl)
    let rx := if b.contentWidth * scl ≤ b.containerWidth then
        (b.containerWidth - b.contentWidth * scl) / 2
      else
        min maxX (max minX pos.x)
    let ry := if b.contentHeight * scl ≤ b.containerHeight then
        (b.containerHeight - b.contentHeight * scl) / 2
      else
        min maxY (max minY pos.y)
    ⟨rx, ry⟩

/-- The inputs of a wheel event that `handleWheel` reads. `deltaMode = 0`
is the pixel mode delivered by browsers for mice and trackpads. -/
structure WheelEvent where
  deltaX : ℚ
  deltaY : ℚ
  deltaMode : ℕ
  ctrlKey : Bool
  clientX : ℚ
  clientY : ℚ
  deriving DecidableEq, Repr

/-- `isPanGesture` from `handleWheel`:
`Math.abs(e.deltaX) > 0 || (!e.ctrlKey && e.deltaMode === 0)`. -/
def isPanGesture (e : WheelEvent) : Bool :=
  decide (0 < |e.deltaX|) || (!e.ctrlKey && decide (e.deltaMode = 0))

/-- `isMouseWheel` from `handleWheel`:
`e.deltaMode === 0 && Math.abs(e.deltaY) >= 25`. -/
def isMouseWheel (e : WheelEvent) : Bool :=
  decide (e.deltaMode = 0) && decide (25 ≤ |e.deltaY|)

/-- The zoom/pan decision of `handleWheel`:
`(e.ctrlKey || isMouseWheel) && !isPanGesture` selects the zoom branch. -/
def wheelIsZoom (e : WheelEvent) : Bool :=
  (e.ctrlKey || isMouseWheel e) && !isPanGesture e

/-- The construction-time configuration the handlers read. -/
structure Config where
  zoomSensitivity : ℚ
  trackpadZoomSensitivity : ℚ
  constrainPan : Bool
  minScale : ℚ
  maxScale : ℚ
  deriving DecidableEq, Repr

/-- The component state the handlers update: the transform
(`scale`, `position`), the transient gesture flags, and the drag anchor
captured at gesture start. -/
structure ComponentState where
  scale : ℚ
  position : Position
  isDragging : Bool
  isZooming : Bool
  isMoving : Bool
  dragStart : Position
  deriving DecidableEq, Repr

/-- `handleWheel` from `SpatialView.tsx`. The zoom branch sets `isZooming`,
then bails out if the container ref is absent, else applies the anchored
zoom; the pan branch sets `isMoving` and moves the position by the wheel
delta, constrained. `rect` is the container's bounding rect (absent when
the ref is not mounted); `bounds` is what `calculateBounds` returns. -/
def handleWheel (cfg : Config) (bounds : Option Bounds) (rect : Option DOMRect)
    (e : WheelEvent) (st : ComponentState) : ComponentState :=
  if wheelIsZoom e then
    let st := { st with isZooming := true }
    match rect with
    | none => st
    | some rect =>
      let cm := calculateMousePosition e.clientX e.clientY rect st.position st.scale
      let sensitivity :=
        if isMouseWheel e then cfg.zoomSensitivity else cfg.trackpadZoomSensitivity
      let newScale :=
        calculateNewScale st.scale e.deltaY sensitivity cfg.minScale cfg.maxScale
      let mouseX := e.clientX - rect.left
      let mouseY := e.clientY - rect.top
      let newPosition := calculateZoomPosition mouseX mouseY cm.1 cm.2 newScale
      { st with position := newPosition, scale := newScale }
  else
    let newPosition : Position := ⟨st.position.x - e.deltaX, st.position.y - e.deltaY⟩
    let adjustedPosition := constrainPosition bounds cfg.constrainPan newPosition st.scale
    { st with isMoving := true, position := adjustedPosition }

/-- `handleMouseDown` from `SpatialView.tsx`: unless the event's target
matches an excluded-pan selector, start dragging and capture the anchor
`pointer - currentPosition`. -/
def handleMouseDown (isPanDisabled : Bool) (pointer : Position)
    (st : ComponentState) : ComponentState :=
  if isPanDisabled then st
  else
    { st with
      isDragging := true
      dragStart := ⟨pointer.x - st.position.x, pointer.y - st.position.y⟩ }

/-- `handleMouseMove` from `SpatialView.tsx`: while dragging, the new
position is `pointer - dragStart`, constrained unless a zoom is in
progress. -/
def handleMouseMove (bounds : Option Bounds) (constrainPan : Bool)
    (pointer : Position) (st : ComponentState) : ComponentState :=
  if st.isDragging then
    let newPosition : Position :=
      ⟨pointer.x - st.dragStart.x, pointer.y - st.dragStart.y⟩
    let adjustedPosition :=
      if st.isZooming then newPosition
      else constrainPosition bounds constrainPan newPosition st.scale
    { st with position := adjustedPosition }
  else st

/-- The single-touch branch of `handleTouchMove` from `SpatialView.tsx`:
identical drag arithmetic to `handleMouseMove`, keyed on one active touch
while dragging. -/
def handleTouchMoveSingle (bounds : Option Bounds) (constrainPan : Bool)
    (touch : Position) (st : ComponentState) : ComponentState :=
  if st.isDragging then
    let newPosition : Position :=
      ⟨touch.x - st.dragStart.x, touch.y - st.dragStart.y⟩
    let adjustedPosition :=
      if st.isZooming then newPosition
      else constrainPosition bounds constrainPan newPosition st.scale
    { st with position := adjustedPosition }
  else st

/-- The pinch scale of the two-touch branch of `handleTouchMove`:
`Number(Math.min(maxScale, Math.max(minScale, scale * (newDistance /
lastDistance))).toFixed(3))`. -/
def pinchNewScale (minScale maxScale currentScale lastDistance newDistance : ℚ) : ℚ :=
  round3 (min maxScale (max minScale (currentScale * (newDistance / lastDistance))))

/-- The scale/position pair the imperative API reads and writes. -/
structure TransformState where
  scale : ℚ
  position : Position
  deriving DecidableEq, Repr

/-- `jumpToElement` from the `useSpatialView` hook. `container` and
`contentRect` are the rects found by the two `element.closest` lookups
(absent when the lookup returns `null`, in which case the state is
untouched); `currentScale` is read off the content's computed transform;
`elementRect` is the target's bounding rect (measured at `currentScale`);
`padding` comes from the options. -/
def jumpToElement (container contentRect : Option DOMRect) (currentScale : ℚ)
    (elementRect : DOMRect) (padding : ℚ) (st : TransformState) : TransformState :=
  match container with
  | none => st
  | some containerRect =>
    match contentRect with
    | none => st
    | some contentRect =>
      let originalWidth := elementRect.width / currentScale
      let originalHeight := elementRect.height / currentScale
      let scaleX := (containerRect.width - padding * 2) / originalWidth
      let scaleY := (containerRect.height - padding * 2) / originalHeight
      let newScale := min scaleX (min scaleY 5)
      let elementX := (elementRect.left - contentRect.left) / currentScale
      let elementY := (elementRect.top - contentRect.top) / currentScale
      let scaledWidth := originalWidth * newScale
      let scaledHeight := originalHeight * newScale
      let newX := (containerRect.width - scaledWidth) / 2 - elementX * newScale
      let newY := (containerRect.height - scaledHeight) / 2 - elementY * newScale
      ⟨newScale, ⟨newX, newY⟩⟩

/-- The data fields of `SpatialViewContextType` (functions and refs of the
React context are omitted; they carry no geometric state of their own). -/
structure SpatialViewContextValue where
  scale : ℚ
  position : Position
  isZooming : Bool
  isDragging : Bool
  zoomDuration : ℚ
  deriving DecidableEq, Repr

/-- `defaultContext` from `SpatialViewContext`: the value handed to
`createContext`, so it is what `useContext` yields outside any provider. -/
def defaultContext : SpatialViewContextValue :=
  ⟨1, ⟨0, 0⟩, false, false, 100⟩

/-- React's `useContext` on `SpatialViewContext`: the provided value when a
`SpatialViewProvider` is above the caller, otherwise the default value the
context was created with. `none` models the JavaScript `undefined`; since
`createContext` received a defined default, the result is never `none`. -/
def reactUseContext (provided : Option SpatialViewContextValue) :
    Option SpatialViewContextValue :=
  some (provided.getD defaultContext)

/-- `useSpatialView` from the hook module: reads the context and throws
when it is `undefined` (modelled as `Except.error` with the thrown
message), otherwise returns the context. -/
def useSpatialView (provided : Option SpatialViewContextValue) :
    Except String SpatialViewContextValue :=
  match reactUseContext provided with
  | none => Except.error "useSpatialView must be used within a SpatialViewProvider"
  | some ctx => Except.ok ctx

/-! ### Helper lemmas -/

lemma round3_mono {a b : ℚ} (h : a ≤ b) : round3 a ≤ round3 b := by
  unfold round3
  have hr : round (a * 1000) ≤ round (b * 1000) := by
    rw [round_eq, round_eq]
    exact Int.floor_mono (by linarith)
  have hc : ((round (a * 1000) : ℤ) : ℚ) ≤ ((round (b * 1000) : ℤ) : ℚ) :=
    Int.cast_le.mpr hr
  exact div_le_div_of_nonneg_right hc (by norm_num)

lemma le_round3 {mn x : ℚ} (hx : mn ≤ x) (h : round3 mn = mn) : mn ≤ round3 x :=
  h ▸ round3_mono hx

lemma round3_le {x mx : ℚ} (hx : x ≤ mx) (h : round3 mx = mx) : round3 x ≤ mx :=
  h ▸ round3_mono hx

/-- A wheel-zoom step keeps the scale inside `[minScale, maxScale]`,
provided the scale starts in range, the sensitivity is nonnegative, the
bounds are ordered with `0 ≤ minScale`, and both bounds are exact
three-decimal values (so that `toFixed(3)` cannot round across them). -/
lemma calculateNewScale_mem (s dY sens mn mx : ℚ) (h0 : 0 ≤ mn) (hmm : mn ≤ mx)
    (hs1 : mn ≤ s) (hs2 : s ≤ mx) (hsens : 0 ≤ sens)
    (hmn3 : round3 mn = mn) (hmx3 : round3 mx = mx) :
    mn ≤ calculateNewScale s dY sens mn mx ∧ calculateNewScale s dY sens mn mx ≤ mx := by
  have hs0 : 0 ≤ s := le_trans h0 hs1
  have hss : 0 ≤ sens * s := mul_nonneg hsens hs0
  unfold calculateNewScale
  split
  · exact ⟨le_round3 (le_max_left _ _) hmn3,
      round3_le (max_le hmm (by linarith)) hmx3⟩
  · exact ⟨le_round3 (le_min hmm (by linarith)) hmn3,
      round3_le (min_le_left _ _) hmx3⟩

/-- A pinch-zoom step keeps the scale inside `[minScale, maxScale]` for any
distance ratio, provided the bounds are ordered and are exact three-decimal
values. -/
lemma pinchNewScale_mem (mn mx s lastD newD : ℚ) (hmm : mn ≤ mx)
    (hmn3 : round3 mn = mn) (hmx3 : round3 mx = mx) :
    mn ≤ pinchNewScale mn mx s lastD newD ∧ pinchNewScale mn mx s lastD newD ≤ mx := by
  unfold pinchNewScale
  exact ⟨le_round3 (le_min hmm (le_max_left _ _)) hmn3,
    round3_le (min_le_left _ _) hmx3⟩

/-! ### Claims -/

/-- C2: cursor-anchored zoom round-trip. For every cursor point, current
position, nonzero current scale and new scale, the content point computed
by `calculateMousePosition` at the old scale, mapped through the new scale
and the position computed by `calculateZoomPosition`, lands exactly on the
original cursor point in container coordinates; in particular zooming at
cursor `(100, 100)` with scale `1 → 2` and position `(0, 0)` yields new
position `(-100, -100)`. -/
theorem cursor_anchored_zoom_roundtrip :
    (∀ (clientX clientY : ℚ) (rect : DOMRect) (pos : Position) (s ns : ℚ),
      s ≠ 0 →
      (calculateMousePosition clientX clientY rect pos s).1 * ns
          + (calculateZoomPosition (clientX - rect.left) (clientY - rect.top)
              (calculateMousePosition clientX clientY rect pos s).1
              (calculateMousePosition clientX clientY rect pos s).2 ns).x
        = clientX - rect.left ∧
      (calculateMousePosition clientX clientY rect pos s).2 * ns
          + (calculateZoomPosition (clientX - rect.left) (clientY - rect.top)
              (calculateMousePosition clientX clientY rect pos s).1
              (calculateMousePosition clientX clientY rect pos s).2 ns).y
        = clientY - rect.top) ∧
    calculateZoomPosition 100 100
        (calculateMousePosition 100 100 ⟨0, 0, 800, 600⟩ ⟨0, 0⟩ 1).1
        (calculateMousePosition 100 100 ⟨0, 0, 800, 600⟩ ⟨0, 0⟩ 1).2 2
      = ⟨-100, -100⟩ := by
  constructor
  · intro clientX clientY rect pos s ns hs
    simp only [calculateMousePosition, calculateZoomPosition]
    constructor <;> ring
  · norm_num [calculateMousePosition, calculateZoomPosition]

/-- Witness for C2 at cursor `(100, 100)`, rect at the origin, position
`(0, 0)`, scale `1 → 2`. -/
theorem cursor_anchored_zoom_roundtrip_witness :
    (calculateMousePosition 100 100 ⟨0, 0, 800, 600⟩ ⟨0, 0⟩ 1).1 * 2
        + (calculateZoomPosition (100 - (0:ℚ)) (100 - (0:ℚ))
            (calculateMousePosition 100 100 ⟨0, 0, 800, 600⟩ ⟨0, 0⟩ 1).1
            (calculateMousePosition 100 100 ⟨0, 0, 800, 600⟩ ⟨0, 0⟩ 1).2 2).x
      = 100 - (0:ℚ) ∧
    (calculateMousePosition 100 100 ⟨0, 0, 800, 600⟩ ⟨0, 0⟩ 1).2 * 2
        + (calculateZoomPosition (100 - (0:ℚ)) (100 - (0:ℚ))
            (calculateMousePosition 100 100 ⟨0, 0, 800, 600⟩ ⟨0, 0⟩ 1).1
            (calculateMousePosition 100 100 ⟨0, 0, 800, 600⟩ ⟨0, 0⟩ 1).2 2).y
      = 100 - (0:ℚ) :=
  cursor_anchored_zoom_roundtrip.1 100 100 ⟨0, 0, 800, 600⟩ ⟨0, 0⟩ 1 2 one_ne_zero

/-- C3: `calculateNewScale` grows the scale by `sensitivity * scale` for
negative `deltaY` and shrinks it by the same amount for positive `deltaY`,
clamps to `[minScale, maxScale]` and rounds to three decimals; the spec's
two examples evaluate as stated, and repeated application from scale `1`
with the default configuration stays inside the bounds in both
directions. -/
theorem calculateNewScale_spec :
    (∀ s dY sens mn mx : ℚ, dY < 0 →
      calculateNewScale s dY sens mn mx = round3 (min mx (s + sens * s))) ∧
    (∀ s dY sens mn mx : ℚ, 0 < dY →
      calculateNewScale s dY sens mn mx = round3 (max mn (s - sens * s))) ∧
    calculateNewScale 1 (-10) (2/10) (1/10) 5 = 12/10 ∧
    calculateNewScale 1 10 (2/10) (1/10) 5 = 8/10 ∧
    (∀ n : ℕ,
      1/10 ≤ (fun s => calculateNewScale s (-10) (2/10) (1/10) 5)^[n] 1 ∧
      (fun s => calculateNewScale s (-10) (2/10) (1/10) 5)^[n] 1 ≤ 5) ∧
    (∀ n : ℕ,
      1/10 ≤ (fun s => calculateNewScale s 10 (2/10) (1/10) 5)^[n] 1 ∧
      (fun s => calculateNewScale s 10 (2/10) (1/10) 5)^[n] 1 ≤ 5) := by
  have hmn3 : round3 ((1:ℚ)/10) = 1/10 := by norm_num [round3, round_eq]
  have hmx3 : round3 (5:ℚ) = 5 := by norm_num [round3, round_eq]
  have hiter : ∀ (dY : ℚ) (n : ℕ),
      1/10 ≤ (fun s => calculateNewScale s dY (2/10) (1/10) 5)^[n] 1 ∧
      (fun s => calculateNewScale s dY (2/10) (1/10) 5)^[n] 1 ≤ 5 := by
    intro dY n
    induction n with
    | zero => norm_num
    | succ k ih =>
      rw [Function.iterate_succ_apply']
      exact calculateNewScale_mem _ dY (2/10) (1/10) 5 (by norm_num) (by norm_num)
        ih.1 ih.2 (by norm_num) hmn3 hmx3
  refine ⟨?_, ?_, ?_, ?_, hiter (-10), hiter 10⟩
  · intro s dY sens mn mx h
    unfold calculateNewScale
    rw [if_neg (by linarith : ¬ dY > 0)]
  · intro s dY sens mn mx h
    unfold calculateNewScale
    rw [if_pos h]
  · norm_num [calculateNewScale, round3, round_eq]
  · norm_num [calculateNewScale, round3, round_eq]

/-- Witness for C3: the zoom-in branch equation at the spec's example
input. -/
theorem calculateNewScale_spec_witness :
    calculateNewScale 1 (-10) (2/10) (1/10) 5 = round3 (min 5 (1 + 2/10 * 1)) :=
  calculateNewScale_spec.1 1 (-10) (2/10) (1/10) 5 (by norm_num)

/-- C7: with the container or content ref absent, `constrainPosition`
returns its input position unchanged, and `jumpToElement` (whose DOM
lookups return `null`) leaves the transform state untouched. -/
theorem absent_refs_noop :
    (∀ (cp : Bool) (pos : Position) (scl : ℚ),
      constrainPosition none cp pos scl = pos) ∧
    (∀ (contentRect : Option DOMRect) (cs : ℚ) (er : DOMRect) (p : ℚ)
       (st : TransformState),
      jumpToElement none contentRect cs er p st = st) ∧
    (∀ (containerRect : DOMRect) (cs : ℚ) (er : DOMRect) (p : ℚ)
       (st : TransformState),
      jumpToElement (some containerRect) none cs er p st = st) :=
  ⟨fun _ _ _ => rfl, fun _ _ _ _ _ => rfl, fun _ _ _ _ _ => rfl⟩

/-- C8: `useSpatialView` never raises. The guard `context === undefined`
can never fire because `createContext` was given a defined default value,
so outside a `SpatialViewProvider` the hook silently returns that default
instead of throwing the advertised error. -/
theorem useSpatialView_no_error :
    useSpatialView none = Except.ok defaultContext ∧
    ∀ provided, ∃ ctx, useSpatialView provided = Except.ok ctx :=
  ⟨rfl, fun provided => ⟨provided.getD defaultContext, rfl⟩⟩

/-- C1, counterexample: the claim that every update keeps
`minScale ≤ scale ≤ maxScale` fails. `jumpToElement` clamps only to the
hard cap `5`: fitting a 10000-wide element into a 100-wide viewport yields
scale `1/100`, below the default configured `minScale = 0.1`. And
`calculateNewScale` itself can round below a `minScale` that is not an
exact 3-decimal value: with `minScale = 0.0004` and sensitivity `1`, a
zoom-out from scale `1` returns `0 < minScale`. -/
theorem scale_invariant_counterexample :
    (jumpToElement (some ⟨0, 0, 100, 100⟩) (some ⟨0, 0, 0, 0⟩) 1
        ⟨0, 0, 10000, 10000⟩ 0 ⟨1, ⟨0, 0⟩⟩).scale = 1/100 ∧
    ¬ ((1:ℚ)/10 ≤ 1/100) ∧
    calculateNewScale 1 10 1 (4/10000) 5 = 0 ∧
    ¬ ((4:ℚ)/10000 ≤ 0) := by
  refine ⟨by norm_num [jumpToElement], by norm_num,
    by norm_num [calculateNewScale, round3, round_eq], by norm_num⟩

/-- C1, amended: a wheel-zoom step (`calculateNewScale`) and a pinch-zoom
step keep the scale inside `[minScale, maxScale]` whenever the previous
scale is in range, the sensitivity is nonnegative, and
`0 ≤ minScale ≤ maxScale` are exact three-decimal values; `jumpToElement`
bounds its scale only by the hard cap `5`. -/
theorem scale_bounds_amended (mn mx s sens dY lastD newD : ℚ)
    (h0 : 0 ≤ mn) (hmm : mn ≤ mx) (hs1 : mn ≤ s) (hs2 : s ≤ mx)
    (hsens : 0 ≤ sens) (hmn3 : round3 mn = mn) (hmx3 : round3 mx = mx) :
    (mn ≤ calculateNewScale s dY sens mn mx ∧
      calculateNewScale s dY sens mn mx ≤ mx) ∧
    (mn ≤ pinchNewScale mn mx s lastD newD ∧
      pinchNewScale mn mx s lastD newD ≤ mx) ∧
    (∀ (containerRect contentRect : DOMRect) (cs : ℚ) (er : DOMRect) (p : ℚ)
       (st : TransformState),
      (jumpToElement (some containerRect) (some contentRect) cs er p st).scale ≤ 5) := by
  refine ⟨calculateNewScale_mem s dY sens mn mx h0 hmm hs1 hs2 hsens hmn3 hmx3,
    pinchNewScale_mem mn mx s lastD newD hmm hmn3 hmx3, ?_⟩
  intro containerRect contentRect cs er p st
  unfold jumpToElement
  exact le_trans (min_le_right _ _) (min_le_right _ _)

/-- Witness for C1 (amended) with the default configuration
`minScale = 0.1`, `maxScale = 5`, sensitivity `0.2`, a zoom-in wheel tick
from scale `1`, and a pinch that doubles the touch distance. -/
theorem scale_bounds_amended_witness :
    ((1:ℚ)/10 ≤ calculateNewScale 1 (-10) (2/10) (1/10) 5 ∧
      calculateNewScale 1 (-10) (2/10) (1/10) 5 ≤ 5) ∧
    ((1:ℚ)/10 ≤ pinchNewScale (1/10) 5 1 1 2 ∧
      pinchNewScale (1/10) 5 1 1 2 ≤ 5) ∧
    (∀ (containerRect contentRect : DOMRect) (cs : ℚ) (er : DOMRect) (p : ℚ)
       (st : TransformState),
      (jumpToElement (some containerRect) (some contentRect) cs er p st).scale ≤ 5) :=
  scale_bounds_amended (1/10) 5 1 (2/10) (-10) 1 2 (by norm_num) (by norm_num)
    (by norm_num) (by norm_num) (by norm_num)
    (by norm_num [round3, round_eq]) (by norm_num [round3, round_eq])

/-- C4, counterexample: the claimed classification fails in both
directions. A pixel-mode wheel tick with `deltaY = 30 ≥ 25`, `deltaX = 0`
and no control key is classified as pan, not as a mouse-wheel zoom tick
(without control, `isPanGesture` is true for every pixel-mode event); and a
control-key event with nonzero `deltaX` is classified as pan, not zoom. -/
theorem wheel_classification_counterexample :
    wheelIsZoom ⟨0, 30, 0, false, 0, 0⟩ = false ∧
    wheelIsZoom ⟨2, 0, 0, true, 0, 0⟩ = false := by
  constructor <;> norm_num [wheelIsZoom, isPanGesture, isMouseWheel]

/-- C4, amended: `handleWheel` classifies a wheel event as zoom exactly
when the control key is held and the horizontal delta is zero (in any
delta mode); every other event — including every pixel-mode event without
the control key, whatever its `deltaY` — is treated as a pan/scroll
gesture. The `deltaY ≥ 25` mouse-wheel test only selects which zoom
sensitivity is used. -/
theorem wheelIsZoom_iff (e : WheelEvent) :
    wheelIsZoom e = true ↔ (e.ctrlKey = true ∧ e.deltaX = 0) := by
  rcases e with ⟨dX, dY, mode, ctrl, cX, cY⟩
  cases ctrl <;> by_cases hm : mode = 0 <;>
    simp [wheelIsZoom, isPanGesture, isMouseWheel, hm, abs_pos]

/-- C5: when enabled and with bounds available, `constrainPosition`
centers each axis on which the scaled content fits inside the viewport,
and otherwise clamps the input coordinate between
`containerSize - contentSize * scale` and `0`, so the scaled content's
edges never recede past the viewport's edges. -/
theorem constrainPosition_spec (b : Bounds) (pos : Position) (scl : ℚ)
    (r : Position) (hr : r = constrainPosition (some b) true pos scl) :
    (r.x = if b.contentWidth * scl ≤ b.containerWidth
      then (b.containerWidth - b.contentWidth * scl) / 2
      else min 0 (max (b.containerWidth - b.contentWidth * scl) pos.x)) ∧
    (r.y = if b.contentHeight * scl ≤ b.containerHeight
      then (b.containerHeight - b.contentHeight * scl) / 2
      else min 0 (max (b.containerHeight - b.contentHeight * scl) pos.y)) ∧
    (b.containerWidth < b.contentWidth * scl →
      r.x ≤ 0 ∧ b.containerWidth ≤ r.x + b.contentWidth * scl) ∧
    (b.containerHeight < b.contentHeight * scl →
      r.y ≤ 0 ∧ b.containerHeight ≤ r.y + b.contentHeight * scl) := by
  subst hr
  have hx : (constrainPosition (some b) true pos scl).x =
      if b.contentWidth * scl ≤ b.containerWidth
      then (b.containerWidth - b.contentWidth * scl) / 2
      else min 0 (max (b.containerWidth - b.contentWidth * scl) pos.x) := by
    simp only [constrainPosition]
    split_ifs with h
    · rfl
    · have hA : b.containerWidth - b.contentWidth * scl ≤ 0 := by
        have := not_le.mp h
        linarith
      rw [max_eq_left hA, min_eq_right hA]
  have hy : (constrainPosition (some b) true pos scl).y =
      if b.contentHeight * scl ≤ b.containerHeight
      then (b.containerHeight - b.contentHeight * scl) / 2
      else min 0 (max (b.containerHeight - b.contentHeight * scl) pos.y) := by
    simp only [constrainPosition]
    split_ifs with h
    · rfl
    · have hA : b.containerHeight - b.contentHeight * scl ≤ 0 := by
        have := not_le.mp h
        linarith
      rw [max_eq_left hA, min_eq_right hA]
  refine ⟨hx, hy, ?_, ?_⟩
  · intro h
    rw [hx, if_neg (not_le.mpr h)]
    constructor
    · exact min_le_left _ _
    · have h1 : b.containerWidth - b.contentWidth * scl ≤
          max (b.containerWidth - b.contentWidth * scl) pos.x := le_max_left _ _
      have h2 : b.containerWidth - b.contentWidth * scl ≤
          min 0 (max (b.containerWidth - b.contentWidth * scl) pos.x) :=
        le_min (by linarith) h1
      linarith
  · intro h
    rw [hy, if_neg (not_le.mpr h)]
    constructor
    · exact min_le_left _ _
    · have h1 : b.containerHeight - b.contentHeight * scl ≤
          max (b.containerHeight - b.contentHeight * scl) pos.y := le_max_left _ _
      have h2 : b.containerHeight - b.contentHeight * scl ≤
          min 0 (max (b.containerHeight - b.contentHeight * scl) pos.y) :=
        le_min (by linarith) h1
      linarith

/-- Witness for C5: a 1000×1200 content at scale 1 in a 400×300 viewport,
dragged far out to `(500, -2000)`, is clamped on both axes. -/
theorem constrainPosition_spec_witness :
    ((constrainPosition (some ⟨400, 300, 1000, 1200⟩) true ⟨500, -2000⟩ 1).x =
      if (1000:ℚ) * 1 ≤ 400 then (400 - 1000 * 1) / 2
      else min 0 (max (400 - 1000 * 1) 500)) ∧
    ((constrainPosition (some ⟨400, 300, 1000, 1200⟩) true ⟨500, -2000⟩ 1).y =
      if (1200:ℚ) * 1 ≤ 300 then (300 - 1200 * 1) / 2
      else min 0 (max (300 - 1200 * 1) (-2000))) ∧
    ((400:ℚ) < 1000 * 1 →
      (constrainPosition (some ⟨400, 300, 1000, 1200⟩) true ⟨500, -2000⟩ 1).x ≤ 0 ∧
      (400:ℚ) ≤ (constrainPosition (some ⟨400, 300, 1000, 1200⟩) true
        ⟨500, -2000⟩ 1).x + 1000 * 1) ∧
    ((300:ℚ) < 1200 * 1 →
      (constrainPosition (some ⟨400, 300, 1000, 1200⟩) true ⟨500, -2000⟩ 1).y ≤ 0 ∧
      (300:ℚ) ≤ (constrainPosition (some ⟨400, 300, 1000, 1200⟩) true
        ⟨500, -2000⟩ 1).y + 1200 * 1) :=
  constrainPosition_spec ⟨400, 300, 1000, 1200⟩ ⟨500, -2000⟩ 1 _ rfl

/-- C6: pan offset law. After a drag starts at pointer `p0` (capturing the
anchor `p0 - position`), a pointer move to `p0 + (dx, dy)` sets the
position to exactly `position + (dx, dy)` whenever the boundary constraint
does not apply: the bounds are unavailable, the constraint is disabled, or
a zoom is in progress. -/
theorem pan_offset_law (bounds : Option Bounds) (cp : Bool)
    (st : ComponentState) (p0 d : Position)
    (h : bounds = none ∨ cp = false ∨ st.isZooming = true) :
    (handleMouseMove bounds cp ⟨p0.x + d.x, p0.y + d.y⟩
        (handleMouseDown false p0 st)).position =
      ⟨st.position.x + d.x, st.position.y + d.y⟩ := by
  rcases h with h | h | h
  · subst h
    simp only [handleMouseDown, handleMouseMove, constrainPosition]
    norm_num [Position.mk.injEq]
    constructor <;> ring_nf
  · subst h
    cases bounds with
    | none =>
      simp only [handleMouseDown, handleMouseMove, constrainPosition]
      norm_num [Position.mk.injEq]
      constructor <;> ring_nf
    | some b =>
      simp only [handleMouseDown, handleMouseMove, constrainPosition]
      norm_num [Position.mk.injEq]
      constructor <;> ring_nf
  · simp only [handleMouseDown, handleMouseMove, h]
    norm_num [Position.mk.injEq]
    constructor <;> ring

/-- Witness for C6: a drag from pointer `(3, 4)` with position `(10, 20)`
moved by `(5, 7)` lands at `(15, 27)`, with no bounds available. -/
theorem pan_offset_law_witness :
    (handleMouseMove none true ⟨3 + 5, 4 + 7⟩
        (handleMouseDown false ⟨3, 4⟩
          ⟨1, ⟨10, 20⟩, false, false, false, ⟨0, 0⟩⟩)).position =
      ⟨10 + 5, 20 + 7⟩ :=
  pan_offset_law none true ⟨1, ⟨10, 20⟩, false, false, false, ⟨0, 0⟩⟩
    ⟨3, 4⟩ ⟨5, 7⟩ (Or.inl rfl)

/-- C9: for a target element with positive dimensions, `jumpToElement`
sets the scale to the minimum of `(viewport width - 2*padding) / element
width`, `(viewport height - 2*padding) / element height` (element
dimensions unscaled) and the hard cap `5`; the scaled element then fits in
the viewport minus the padding, and its center lands exactly on the
viewport's center on both axes. -/
theorem jumpToElement_spec (containerRect contentRect elementRect : DOMRect)
    (cs p : ℚ) (st : TransformState) (r : TransformState)
    (hr : r = jumpToElement (some containerRect) (some contentRect) cs elementRect p st)
    (hw : 0 < elementRect.width) (hh : 0 < elementRect.height) (hcs : 0 < cs) :
    r.scale = min (min ((containerRect.width - 2 * p) / (elementRect.width / cs))
        ((containerRect.height - 2 * p) / (elementRect.height / cs))) 5 ∧
    elementRect.width / cs * r.scale ≤ containerRect.width - 2 * p ∧
    elementRect.height / cs * r.scale ≤ containerRect.height - 2 * p ∧
    ((elementRect.left - contentRect.left) / cs + elementRect.width / cs / 2)
        * r.scale + r.position.x = containerRect.width / 2 ∧
    ((elementRect.top - contentRect.top) / cs + elementRect.height / cs / 2)
        * r.scale + r.position.y = containerRect.height / 2 := by
  have how : (0:ℚ) < elementRect.width / cs := div_pos hw hcs
  have hoh : (0:ℚ) < elementRect.height / cs := div_pos hh hcs
  subst hr
  simp only [jumpToElement]
  refine ⟨?_, ?_, ?_, by ring, by ring⟩
  · have h2p : ∀ a : ℚ, a - p * 2 = a - 2 * p := fun a => by ring
    rw [h2p, h2p, min_assoc]
  · calc elementRect.width / cs
          * min ((containerRect.width - p * 2) / (elementRect.width / cs))
              (min ((containerRect.height - p * 2) / (elementRect.height / cs)) 5)
        ≤ elementRect.width / cs
          * ((containerRect.width - p * 2) / (elementRect.width / cs)) :=
          mul_le_mul_of_nonneg_left (min_le_left _ _) how.le
      _ = containerRect.width - 2 * p := by
          rw [mul_comm, div_mul_cancel₀ _ (ne_of_gt how)]; ring
  · calc elementRect.height / cs
          * min ((containerRect.width - p * 2) / (elementRect.width / cs))
              (min ((containerRect.height - p * 2) / (elementRect.height / cs)) 5)
        ≤ elementRect.height / cs
          * ((containerRect.height - p * 2) / (elementRect.height / cs)) :=
          mul_le_mul_of_nonneg_left
            (le_trans (min_le_right _ _) (min_le_left _ _)) hoh.le
      _ = containerRect.height - 2 * p := by
          rw [mul_comm, div_mul_cancel₀ _ (ne_of_gt hoh)]; ring

/-- Witness for C9: an element twice the viewport's width (1600 wide in an
800×800 viewport, at current scale 1) with padding 50 is scaled down to
`(800 - 100) / 1600` and centered. -/
theorem jumpToElement_spec_witness :
    (jumpToElement (some ⟨0, 0, 800, 800⟩) (some ⟨0, 0, 1600, 800⟩) 1
        ⟨0, 0, 1600, 800⟩ 50 ⟨1, ⟨0, 0⟩⟩).scale =
      min (min ((800 - 2 * 50) / ((1600:ℚ) / 1)) ((800 - 2 * 50) / ((800:ℚ) / 1))) 5 ∧
    (1600:ℚ) / 1 * (jumpToElement (some ⟨0, 0, 800, 800⟩) (some ⟨0, 0, 1600, 800⟩) 1
        ⟨0, 0, 1600, 800⟩ 50 ⟨1, ⟨0, 0⟩⟩).scale ≤ 800 - 2 * 50 ∧
    (800:ℚ) / 1 * (jumpToElement (some ⟨0, 0, 800, 800⟩) (some ⟨0, 0, 1600, 800⟩) 1
        ⟨0, 0, 1600, 800⟩ 50 ⟨1, ⟨0, 0⟩⟩).scale ≤ 800 - 2 * 50 ∧
    (((0:ℚ) - 0) / 1 + 1600 / 1 / 2)
        * (jumpToElement (some ⟨0, 0, 800, 800⟩) (some ⟨0, 0, 1600, 800⟩) 1
            ⟨0, 0, 1600, 800⟩ 50 ⟨1, ⟨0, 0⟩⟩).scale
        + (jumpToElement (some ⟨0, 0, 800, 800⟩) (some ⟨0, 0, 1600, 800⟩) 1
            ⟨0, 0, 1600, 800⟩ 50 ⟨1, ⟨0, 0⟩⟩).position.x = (800:ℚ) / 2 ∧
    (((0:ℚ) - 0) / 1 + 800 / 1 / 2)
        * (jumpToElement (some ⟨0, 0, 800, 800⟩) (some ⟨0, 0, 1600, 800⟩) 1
            ⟨0, 0, 1600, 800⟩ 50 ⟨1, ⟨0, 0⟩⟩).scale
        + (jumpToElement (some ⟨0, 0, 800, 800⟩) (some ⟨0, 0, 1600, 800⟩) 1
            ⟨0, 0, 1600, 800⟩ 50 ⟨1, ⟨0, 0⟩⟩).position.y = (800:ℚ) / 2 :=
  jumpToElement_spec ⟨0, 0, 800, 800⟩ ⟨0, 0, 1600, 800⟩ ⟨0, 0, 1600, 800⟩ 1 50
    ⟨1, ⟨0, 0⟩⟩ _ rfl (by norm_num) (by norm_num) (by norm_num)

/-- C10: every pan path — a mouse-drag move, a single-touch drag move, and
a wheel event classified as pan — leaves the scale unchanged and only
moves the position. -/
theorem pan_preserves_scale :
    (∀ (bounds : Option Bounds) (cp : Bool) (pointer : Position)
       (st : ComponentState),
      (handleMouseMove bounds cp pointer st).scale = st.scale) ∧
    (∀ (cfg : Config) (bounds : Option Bounds) (rect : Option DOMRect)
       (e : WheelEvent) (st : ComponentState), wheelIsZoom e = false →
      (handleWheel cfg bounds rect e st).scale = st.scale) ∧
    (∀ (bounds : Option Bounds) (cp : Bool) (touch : Position)
       (st : ComponentState),
      (handleTouchMoveSingle bounds cp touch st).scale = st.scale) := by
  refine ⟨?_, ?_, ?_⟩
  · intro bounds cp pointer st
    unfold handleMouseMove
    split <;> rfl
  · intro cfg bounds rect e st h
    simp [handleWheel, h]
  · intro bounds cp touch st
    unfold handleTouchMoveSingle
    split <;> rfl

/-- Witness for C10: a pixel-mode wheel event without the control key
(`deltaY = 30`) is a pan and keeps scale `1`. -/
theorem pan_preserves_scale_witness :
    (handleWheel ⟨2/10, 5/100, true, 1/10, 5⟩ none none
        ⟨0, 30, 0, false, 0, 0⟩ ⟨1, ⟨0, 0⟩, false, false, false, ⟨0, 0⟩⟩).scale = 1 :=
  pan_preserves_scale.2.1 ⟨2/10, 5/100, true, 1/10, 5⟩ none none
    ⟨0, 30, 0, false, 0, 0⟩ ⟨1, ⟨0, 0⟩, false, false, false, ⟨0, 0⟩⟩
    (by norm_num [wheelIsZoom, isPanGesture, isMouseWheel])

end SpatialView
